import Mathlib

/-!
# Verification of the NDVI-Viewer application (`src/app.py`)

A shallow embedding of the NDVI-Viewer Streamlit / Earth Engine application.
The application has five pieces that the verified claims are about:

* `upload_files_proc` — the AOI resolver turning uploaded GeoJSON files into
  an Earth Engine geometry (multi-polygon, or a default point);
* the time-window selector — two date pickers with defaults, reformatted to
  `YYYY-MM-DD` strings via `strftime`;
* the image-collection query — `ee.ImageCollection('COPERNICUS/S2_SR')`
  filtered by cloud cover, date window, and AOI bounds;
* the NDVI band math — `normalizedDifference(['B8','B4'])` followed by
  `updateMask(ndvi.gte(0))`;
* the 7-class NDVI classification — a chain of seven `where` conditional
  overwrites.

Earth Engine rasters are modelled per pixel: a pixel is an `Option ℚ`,
`none` being a masked/undefined pixel.  Python exceptions are modelled with
`Except String`.
-/

namespace NDVIViewer

/-! ## JSON values (the result of Python `json.loads`) -/

/-- A parsed JSON document, as produced by `json.loads`.  Numbers are
modelled as rationals. -/
inductive Json where
  | null : Json
  | bool : Bool → Json
  | num : ℚ → Json
  | str : String → Json
  | arr : List Json → Json
  | obj : List (String × Json) → Json

/-- Python `d[k]` on a parsed JSON value: succeeds only on an object that
has the key (otherwise `json_data['features']` raises `KeyError` /
`TypeError`). -/
def Json.get? (j : Json) (k : String) : Option Json :=
  match j with
  | .obj fields =>
      match fields.find? (fun f => f.1 = k) with
      | some f => some f.2
      | none => none
  | _ => none

/-- Python `a[i]` on a parsed JSON value: succeeds only on an array long
enough (otherwise `IndexError` / `TypeError`). -/
def Json.at? (j : Json) (i : Nat) : Option Json :=
  match j with
  | .arr xs => xs.get? i
  | _ => none

/-- The access path `geojson_data['features'][0]['geometry']['coordinates']`
of `upload_files_proc` (src/app.py line 42); `none` when any step raises. -/
def extractCoordinates (j : Json) : Option Json := do
  let features ← j.get? "features"
  let feature0 ← features.at? 0
  let geometry ← feature0.get? "geometry"
  geometry.get? "coordinates"

/-! ## Earth Engine geometries -/

/-- The `ee.Geometry` constructors used by the application.  A polygon
carries the (unvalidated) coordinate array it was constructed from. -/
inductive EEGeometry where
  | Point : List ℚ → EEGeometry
  | Polygon : Json → EEGeometry
  | MultiPolygon : List EEGeometry → EEGeometry

/-! ## The AOI resolver `upload_files_proc` (src/app.py lines 35–53)

An uploaded file is modelled by the result of parsing its byte content:
`some j` when `json.loads` succeeds with document `j`, `none` when it
raises.  A raised Python exception is an `Except.error`. -/

/-- One iteration of the `for upload_file in upload_files` loop body:
parse the bytes, extract the coordinates, build `ee.Geometry.Polygon`.
Any failure raises (returns `Except.error`). -/
def procFile (upload_file : Option Json) : Except String EEGeometry :=
  match upload_file with
  | none => .error "json.loads: invalid GeoJSON"
  | some geojson_data =>
      match extractCoordinates geojson_data with
      | none => .error "missing features[0].geometry.coordinates"
      | some coordinates => .ok (.Polygon coordinates)

/-- The whole upload loop: geometries accumulate into `geometry_aoi_list`
in file order; the first failure aborts the loop (the exception
propagates). -/
def buildGeometryList : List (Option Json) → Except String (List EEGeometry)
  | [] => .ok []
  | f :: fs =>
      match procFile f with
      | .error e => .error e
      | .ok g =>
          match buildGeometryList fs with
          | .error e => .error e
          | .ok gs => .ok (g :: gs)

/-- The resolver `upload_files_proc` (src/app.py lines 35–53): accumulate one polygon
per uploaded file, then combine into a `MultiPolygon` when the list is
non-empty, else fall back to the default point `[27.98, 36.13]`. -/
def upload_files_proc (upload_files : List (Option Json)) : Except String EEGeometry :=
  match buildGeometryList upload_files with
  | .error e => .error e
  | .ok geometry_aoi_list =>
      if geometry_aoi_list.isEmpty then .ok (.Point [27.98, 36.13])
      else .ok (.MultiPolygon geometry_aoi_list)

/-- The coordinates a file contributes, if it is valid: parse result plus
the `features[0].geometry.coordinates` path. -/
def coordsOf (upload_file : Option Json) : Option Json :=
  upload_file.bind extractCoordinates

/-! ## The time-window selector (src/app.py lines 69–75) -/

/-- A Python `datetime.date` value, as held by the date pickers. -/
structure PyDate where
  year : Nat
  month : Nat
  day : Nat
deriving DecidableEq

/-- Zero-padding to two digits, as `%m` / `%d` of `strftime`. -/
def pad2 (n : Nat) : String :=
  if n < 10 then "0" ++ toString n else toString n

/-- Zero-padding to four digits, as `%Y` of `strftime`. -/
def pad4 (n : Nat) : String :=
  if n < 10 then "000" ++ toString n
  else if n < 100 then "00" ++ toString n
  else if n < 1000 then "0" ++ toString n
  else toString n

/-- Python `d.strftime('%Y-%m-%d')` (src/app.py lines 74–75). -/
def strftimeYmd (d : PyDate) : String :=
  pad4 d.year ++ "-" ++ pad2 d.month ++ "-" ++ pad2 d.day

/-- The picker `st.date_input(label, default)`: the picked value when set, else the
default. -/
def date_input (picked : Option PyDate) (default : PyDate) : PyDate :=
  picked.getD default

/-- The time-window selector: both pickers (defaults `datetime(2023, 2, 10)`
and `datetime(2023, 2, 20)`), each reformatted with `strftime('%Y-%m-%d')`
(src/app.py lines 70–75).  No start/end ordering validation happens. -/
def timeWindow (startPick endPick : Option PyDate) : String × String :=
  let start_date := date_input startPick ⟨2023, 2, 10⟩
  let end_date := date_input endPick ⟨2023, 2, 20⟩
  (strftimeYmd start_date, strftimeYmd end_date)

/-! ## The image-collection query (src/app.py lines 105–108) -/

/-- The one `ee.Filter` constructor the application uses:
`ee.Filter.lt(property, value)`. -/
inductive EEFilterExpr where
  | ltF : String → ℚ → EEFilterExpr

/-- The Earth Engine image-collection expression graph the application
builds: an archive reference with chained filter applications. -/
inductive ICQuery where
  | imageCollection : String → ICQuery
  | filterBy : ICQuery → EEFilterExpr → ICQuery
  | filterDate : ICQuery → String → String → ICQuery
  | filterBounds : ICQuery → EEGeometry → ICQuery

/-- The query built at src/app.py lines 105–108:
`ee.ImageCollection('COPERNICUS/S2_SR')
   .filter(ee.Filter.lt("CLOUDY_PIXEL_PERCENTAGE", 100))
   .filterDate(start_date, end_date)
   .filterBounds(geometry_aoi)`. -/
def collectionQuery (start_date end_date : String) (geometry_aoi : EEGeometry) : ICQuery :=
  .filterBounds
    (.filterDate
      (.filterBy (.imageCollection "COPERNICUS/S2_SR")
        (.ltF "CLOUDY_PIXEL_PERCENTAGE" 100))
      start_date end_date)
    geometry_aoi

/-- The full query for given picker values: the date strings the query
receives are exactly the `timeWindow` output. -/
def queryForInputs (startPick endPick : Option PyDate) (geometry_aoi : EEGeometry) : ICQuery :=
  let dates := timeWindow startPick endPick
  collectionQuery dates.1 dates.2 geometry_aoi

/-- The date arguments carried by the (unique) `filterDate` node of a
query, if any. -/
def dateArgs : ICQuery → Option (String × String)
  | .imageCollection _ => none
  | .filterBy q _ => dateArgs q
  | .filterDate _ s e => some (s, e)
  | .filterBounds q _ => dateArgs q

/-- A satellite scene of the remote archive, reduced to what the three
filters consult: its metadata properties, its acquisition date
(`YYYY-MM-DD`), and whether its footprint intersects a geometry. -/
structure Scene where
  props : String → ℚ
  date : String
  intersects : EEGeometry → Bool

/-- Start-inclusive, end-exclusive date-window test (`filterDate`
convention of the remote service), on `YYYY-MM-DD` strings whose
lexicographic order is chronological. -/
def dateInWindow (s e d : String) : Bool :=
  !(compare s d == Ordering.gt) && (compare d e == Ordering.lt)

/-- Denotation of one metadata filter on one scene. -/
def runFilter (f : EEFilterExpr) (sc : Scene) : Bool :=
  match f with
  | .ltF p v => decide (sc.props p < v)

/-- Denotation of a query over an archive database (archive name ↦ list of
scenes): each chained filter keeps the scenes satisfying its predicate. -/
def runQuery (db : String → List Scene) : ICQuery → List Scene
  | .imageCollection name => db name
  | .filterBy q f => (runQuery db q).filter (runFilter f)
  | .filterDate q s e => (runQuery db q).filter (fun sc => dateInWindow s e sc.date)
  | .filterBounds q g => (runQuery db q).filter (fun sc => sc.intersects g)

/-! ## Earth Engine pixel operations (src/app.py lines 130–154)

A raster is modelled at one pixel: `Option ℚ`, with `none` a
masked/undefined pixel.  The band-math methods the application uses are
given their per-pixel Earth Engine semantics. -/

/-- Earth Engine `image.gte(c)` at a pixel: `1` where the value is ≥ `c`, `0`
otherwise; masked stays masked. -/
def eeGte (img : Option ℚ) (c : ℚ) : Option ℚ :=
  img.map (fun x => if c ≤ x then 1 else 0)

/-- Earth Engine `image.lt(c)` at a pixel: `1` where the value is < `c`, `0`
otherwise; masked stays masked. -/
def eeLt (img : Option ℚ) (c : ℚ) : Option ℚ :=
  img.map (fun x => if x < c then 1 else 0)

/-- Earth Engine `a.And(b)` at a pixel: `1` where both are non-zero, `0` otherwise;
masked where either operand is masked. -/
def eeAnd (a b : Option ℚ) : Option ℚ :=
  match a, b with
  | some x, some y => some (if x ≠ 0 ∧ y ≠ 0 then 1 else 0)
  | _, _ => none

/-- Earth Engine `image.where(test, value)` at a pixel: replace with `value` where
`test` is unmasked and non-zero; keep the input value where `test` is zero
or masked; a masked input pixel stays masked (`where` never unmasks). -/
def eeWhere (img test : Option ℚ) (value : ℚ) : Option ℚ :=
  match img, test with
  | some x, some t => if t = 0 then some x else some value
  | some x, none => some x
  | none, _ => none

/-- Earth Engine `image.updateMask(mask)` at a pixel: keep the value where `mask` is
unmasked and non-zero, mask it out otherwise. -/
def updateMask (img mask : Option ℚ) : Option ℚ :=
  match img, mask with
  | some x, some m => if m = 0 then none else some x
  | _, _ => none

/-- Earth Engine `image.normalizedDifference(['B8', 'B4'])` at a pixel:
`(B8 - B4) / (B8 + B4)`; masked where an input band is masked or the
denominator is zero. -/
def normalizedDifference (b8 b4 : Option ℚ) : Option ℚ :=
  match b8, b4 with
  | some x, some y => if x + y = 0 then none else some ((x - y) / (x + y))
  | _, _ => none

/-- The function `getNDVI` (src/app.py lines 130–131), at a pixel of the median
composite with band values `b8` (near-infrared) and `b4` (red). -/
def getNDVI (b8 b4 : Option ℚ) : Option ℚ :=
  normalizedDifference b8 b4

/-- The statement `ndvi = ndvi.updateMask(ndvi.gte(0))` (src/app.py line 144): the NDVI
layer with below-zero values masked out, at a pixel of the composite. -/
def maskedNDVI (b8 b4 : Option ℚ) : Option ℚ :=
  let ndvi := getNDVI b8 b4
  updateMask ndvi (eeGte ndvi 0)

/-- The image `ndvi_classified` (src/app.py lines 147–154): seven chained `where`
conditional overwrites on the masked NDVI image, each condition reading
the variable `ndvi` — the original (masked) NDVI, never the intermediate
classified output. -/
def ndvi_classified (ndvi : Option ℚ) : Option ℚ :=
  eeWhere
    (eeWhere
      (eeWhere
        (eeWhere
          (eeWhere
            (eeWhere
              (eeWhere ndvi (eeAnd (eeGte ndvi 0) (eeLt ndvi 0.15)) 1)
              (eeAnd (eeGte ndvi 0.15) (eeLt ndvi 0.25)) 2)
            (eeAnd (eeGte ndvi 0.25) (eeLt ndvi 0.35)) 3)
          (eeAnd (eeGte ndvi 0.35) (eeLt ndvi 0.45)) 4)
        (eeAnd (eeGte ndvi 0.45) (eeLt ndvi 0.65)) 5)
      (eeAnd (eeGte ndvi 0.65) (eeLt ndvi 0.75)) 6)
    (eeGte ndvi 0.75) 7

/-- The seven `where` conditions of the classification chain, in source
order, evaluated at one pixel of the (original) NDVI image. -/
def classConds (ndvi : Option ℚ) : List (Option ℚ) :=
  [eeAnd (eeGte ndvi 0) (eeLt ndvi 0.15),
   eeAnd (eeGte ndvi 0.15) (eeLt ndvi 0.25),
   eeAnd (eeGte ndvi 0.25) (eeLt ndvi 0.35),
   eeAnd (eeGte ndvi 0.35) (eeLt ndvi 0.45),
   eeAnd (eeGte ndvi 0.45) (eeLt ndvi 0.65),
   eeAnd (eeGte ndvi 0.65) (eeLt ndvi 0.75),
   eeGte ndvi 0.75]

/-- A `where` condition fires at a pixel when it is unmasked and
non-zero. -/
def condFires (c : Option ℚ) : Bool :=
  match c with
  | some t => t != 0
  | none => false

/-! ## Spec-side definitions

These follow the spec's words and exist to be compared with the embedding
of the source above. -/

/-- The spec's classification table: class 1 on [0, 0.15), 2 on
[0.15, 0.25), 3 on [0.25, 0.35), 4 on [0.35, 0.45), 5 on [0.45, 0.65),
6 on [0.65, 0.75), 7 on [0.75, ∞), breakpoints lower-bound inclusive. -/
def specClass (v : ℚ) : ℚ :=
  if v < 0.15 then 1
  else if v < 0.25 then 2
  else if v < 0.35 then 3
  else if v < 0.45 then 4
  else if v < 0.65 then 5
  else if v < 0.75 then 6
  else 7

/-- One classification rule of the reference classifier of the spec:
a `(lowerBound, upperBound, classId)` triple, `none` upper bound meaning
unbounded. -/
structure ClassRule where
  lowerBound : ℚ
  upperBound : Option ℚ
  classId : ℚ

/-- The spec's explicit ordered rule list. -/
def classRules : List ClassRule :=
  [⟨0, some 0.15, 1⟩,
   ⟨0.15, some 0.25, 2⟩,
   ⟨0.25, some 0.35, 3⟩,
   ⟨0.35, some 0.45, 4⟩,
   ⟨0.45, some 0.65, 5⟩,
   ⟨0.65, some 0.75, 6⟩,
   ⟨0.75, none, 7⟩]

/-- A rule matches an NDVI value when `lowerBound ≤ v` and `v` is below
the upper bound (if bounded). -/
def ruleMatches (r : ClassRule) (v : ℚ) : Bool :=
  decide (r.lowerBound ≤ v) &&
    (match r.upperBound with
     | none => true
     | some u => decide (v < u))

/-- Modelled from the spec (design note 9, first bullet): the reference
classifier — an explicit ordered rule list evaluated against the original
NDVI value, first-matching-rule wins, mask propagated; a value matched by
no rule is left unchanged. -/
def refClassify (ndvi : Option ℚ) : Option ℚ :=
  match ndvi with
  | none => none
  | some v =>
      match classRules.find? (fun r => ruleMatches r v) with
      | some r => some r.classId
      | none => some v

/-! ## Sample GeoJSON documents (concrete instances for the theorems) -/

/-- A concrete polygon coordinate array (one ring of four positions). -/
def sampleRing : Json :=
  .arr [.arr [.arr [.num 0, .num 0], .arr [.num 1, .num 0],
              .arr [.num 1, .num 1], .arr [.num 0, .num 0]]]

/-- A second concrete polygon coordinate array. -/
def sampleRing2 : Json :=
  .arr [.arr [.arr [.num 2, .num 2], .arr [.num 3, .num 2],
              .arr [.num 3, .num 3], .arr [.num 2, .num 2]]]

/-- A well-formed single-polygon GeoJSON document around a coordinate
array. -/
def sampleDoc (ring : Json) : Json :=
  .obj [("type", .str "FeatureCollection"),
        ("features", .arr [.obj [("type", .str "Feature"),
                                 ("geometry", .obj [("type", .str "Polygon"),
                                                    ("coordinates", ring)])]])]

/-! ## Helper lemmas on the classification chain -/

/-- Closed form of the `where` chain at one unmasked pixel: a value below
zero is kept unchanged (no condition fires), a value ≥ 0 is overwritten
with its spec class. -/
theorem ndvi_classified_some_eq (v : ℚ) :
    ndvi_classified (some v) = some (if v < 0 then v else specClass v) := by
  rcases lt_or_le v 0 with hneg | h0
  · have N0 : ¬ ((0:ℚ) ≤ v) := not_le.mpr hneg
    have N15 : ¬ ((0.15:ℚ) ≤ v) := not_le.mpr (by linarith)
    have N25 : ¬ ((0.25:ℚ) ≤ v) := not_le.mpr (by linarith)
    have N35 : ¬ ((0.35:ℚ) ≤ v) := not_le.mpr (by linarith)
    have N45 : ¬ ((0.45:ℚ) ≤ v) := not_le.mpr (by linarith)
    have N65 : ¬ ((0.65:ℚ) ≤ v) := not_le.mpr (by linarith)
    have N75 : ¬ ((0.75:ℚ) ≤ v) := not_le.mpr (by linarith)
    simp [ndvi_classified, specClass, eeWhere, eeAnd, eeGte, eeLt,
      N0, N15, N25, N35, N45, N65, N75, hneg]
  rcases lt_or_le v 0.15 with hhi | A15
  · have L0 : ¬ (v < (0:ℚ)) := not_lt.mpr h0
    have N15 : ¬ ((0.15:ℚ) ≤ v) := not_le.mpr hhi
    have N25 : ¬ ((0.25:ℚ) ≤ v) := not_le.mpr (by linarith)
    have N35 : ¬ ((0.35:ℚ) ≤ v) := not_le.mpr (by linarith)
    have N45 : ¬ ((0.45:ℚ) ≤ v) := not_le.mpr (by linarith)
    have N65 : ¬ ((0.65:ℚ) ≤ v) := not_le.mpr (by linarith)
    have N75 : ¬ ((0.75:ℚ) ≤ v) := not_le.mpr (by linarith)
    simp [ndvi_classified, specClass, eeWhere, eeAnd, eeGte, eeLt,
      h0, hhi, L0, N15, N25, N35, N45, N65, N75]
  rcases lt_or_le v 0.25 with hhi | A25
  · have L0 : ¬ (v < (0:ℚ)) := not_lt.mpr h0
    have L15 : ¬ (v < (0.15:ℚ)) := not_lt.mpr A15
    have N25 : ¬ ((0.25:ℚ) ≤ v) := not_le.mpr hhi
    have N35 : ¬ ((0.35:ℚ) ≤ v) := not_le.mpr (by linarith)
    have N45 : ¬ ((0.45:ℚ) ≤ v) := not_le.mpr (by linarith)
    have N65 : ¬ ((0.65:ℚ) ≤ v) := not_le.mpr (by linarith)
    have N75 : ¬ ((0.75:ℚ) ≤ v) := not_le.mpr (by linarith)
    simp [ndvi_classified, specClass, eeWhere, eeAnd, eeGte, eeLt,
      h0, A15, hhi, L0, L15, N25, N35, N45, N65, N75]
  rcases lt_or_le v 0.35 with hhi | A35
  · have L0 : ¬ (v < (0:ℚ)) := not_lt.mpr h0
    have L15 : ¬ (v < (0.15:ℚ)) := not_lt.mpr (by linarith)
    have L25 : ¬ (v < (0.25:ℚ)) := not_lt.mpr A25
    have N35 : ¬ ((0.35:ℚ) ≤ v) := not_le.mpr hhi
    have N45 : ¬ ((0.45:ℚ) ≤ v) := not_le.mpr (by linarith)
    have N65 : ¬ ((0.65:ℚ) ≤ v) := not_le.mpr (by linarith)
    have N75 : ¬ ((0.75:ℚ) ≤ v) := not_le.mpr (by linarith)
    simp [ndvi_classified, specClass, eeWhere, eeAnd, eeGte, eeLt,
      h0, A25, hhi, L0, L15, L25, N35, N45, N65, N75]
  rcases lt_or_le v 0.45 with hhi | A45
  · have L0 : ¬ (v < (0:ℚ)) := not_lt.mpr h0
    have L15 : ¬ (v < (0.15:ℚ)) := not_lt.mpr (by linarith)
    have L25 : ¬ (v < (0.25:ℚ)) := not_lt.mpr (by linarith)
    have L35 : ¬ (v < (0.35:ℚ)) := not_lt.mpr A35
    have N45 : ¬ ((0.45:ℚ) ≤ v) := not_le.mpr hhi
    have N65 : ¬ ((0.65:ℚ) ≤ v) := not_le.mpr (by linarith)
    have N75 : ¬ ((0.75:ℚ) ≤ v) := not_le.mpr (by linarith)
    have A15 : (0.15:ℚ) ≤ v := by linarith
    have A25 : (0.25:ℚ) ≤ v := by linarith
    simp [ndvi_classified, specClass, eeWhere, eeAnd, eeGte, eeLt,
      h0, A15, A25, A35, hhi, L0, L15, L25, L35, N45, N65, N75]
  rcases lt_or_le v 0.65 with hhi | A65
  · have L0 : ¬ (v < (0:ℚ)) := not_lt.mpr h0
    have L15 : ¬ (v < (0.15:ℚ)) := not_lt.mpr (by linarith)
    have L25 : ¬ (v < (0.25:ℚ)) := not_lt.mpr (by linarith)
    have L35 : ¬ (v < (0.35:ℚ)) := not_lt.mpr (by linarith)
    have L45 : ¬ (v < (0.45:ℚ)) := not_lt.mpr A45
    have N65 : ¬ ((0.65:ℚ) ≤ v) := not_le.mpr hhi
    have N75 : ¬ ((0.75:ℚ) ≤ v) := not_le.mpr (by linarith)
    have A15 : (0.15:ℚ) ≤ v := by linarith
    have A25 : (0.25:ℚ) ≤ v := by linarith
    have A35 : (0.35:ℚ) ≤ v := by linarith
    simp [ndvi_classified, specClass, eeWhere, eeAnd, eeGte, eeLt,
      h0, A15, A25, A35, A45, hhi, L0, L15, L25, L35, L45, N65, N75]
  rcases lt_or_le v 0.75 with hhi | A75
  · have L0 : ¬ (v < (0:ℚ)) := not_lt.mpr h0
    have L15 : ¬ (v < (0.15:ℚ)) := not_lt.mpr (by linarith)
    have L25 : ¬ (v < (0.25:ℚ)) := not_lt.mpr (by linarith)
    have L35 : ¬ (v < (0.35:ℚ)) := not_lt.mpr (by linarith)
    have L45 : ¬ (v < (0.45:ℚ)) := not_lt.mpr (by linarith)
    have L65 : ¬ (v < (0.65:ℚ)) := not_lt.mpr A65
    have N75 : ¬ ((0.75:ℚ) ≤ v) := not_le.mpr hhi
    have A15 : (0.15:ℚ) ≤ v := by linarith
    have A25 : (0.25:ℚ) ≤ v := by linarith
    have A35 : (0.35:ℚ) ≤ v := by linarith
    have A45 : (0.45:ℚ) ≤ v := by linarith
    simp [ndvi_classified, specClass, eeWhere, eeAnd, eeGte, eeLt,
      h0, A15, A25, A35, A45, A65, hhi, L0, L15, L25, L35, L45, L65, N75]
  · have L0 : ¬ (v < (0:ℚ)) := not_lt.mpr h0
    have L15 : ¬ (v < (0.15:ℚ)) := not_lt.mpr (by linarith)
    have L25 : ¬ (v < (0.25:ℚ)) := not_lt.mpr (by linarith)
    have L35 : ¬ (v < (0.35:ℚ)) := not_lt.mpr (by linarith)
    have L45 : ¬ (v < (0.45:ℚ)) := not_lt.mpr (by linarith)
    have L65 : ¬ (v < (0.65:ℚ)) := not_lt.mpr (by linarith)
    have L75 : ¬ (v < (0.75:ℚ)) := not_lt.mpr A75
    have A15 : (0.15:ℚ) ≤ v := by linarith
    have A25 : (0.25:ℚ) ≤ v := by linarith
    have A35 : (0.35:ℚ) ≤ v := by linarith
    have A45 : (0.45:ℚ) ≤ v := by linarith
    have A65 : (0.65:ℚ) ≤ v := by linarith
    simp [ndvi_classified, specClass, eeWhere, eeAnd, eeGte, eeLt,
      h0, A15, A25, A35, A45, A65, A75, L0, L15, L25, L35, L45, L65, L75]

/-- Closed form of the spec's reference classifier at one unmasked pixel:
it agrees with the same spec class table, keeping values below zero
unchanged (no rule matches them). -/
theorem refClassify_some_eq (v : ℚ) :
    refClassify (some v) = some (if v < 0 then v else specClass v) := by
  rcases lt_or_le v 0 with hneg | h0
  · have N0 : ¬ ((0:ℚ) ≤ v) := not_le.mpr hneg
    have N15 : ¬ ((0.15:ℚ) ≤ v) := not_le.mpr (by linarith)
    have N25 : ¬ ((0.25:ℚ) ≤ v) := not_le.mpr (by linarith)
    have N35 : ¬ ((0.35:ℚ) ≤ v) := not_le.mpr (by linarith)
    have N45 : ¬ ((0.45:ℚ) ≤ v) := not_le.mpr (by linarith)
    have N65 : ¬ ((0.65:ℚ) ≤ v) := not_le.mpr (by linarith)
    have N75 : ¬ ((0.75:ℚ) ≤ v) := not_le.mpr (by linarith)
    simp [refClassify, classRules, ruleMatches, List.find?, specClass,
      N0, N15, N25, N35, N45, N65, N75, hneg]
  rcases lt_or_le v 0.15 with hhi | A15
  · have L0 : ¬ (v < (0:ℚ)) := not_lt.mpr h0
    simp [refClassify, classRules, ruleMatches, List.find?, specClass, h0, hhi, L0]
  rcases lt_or_le v 0.25 with hhi | A25
  · have L0 : ¬ (v < (0:ℚ)) := not_lt.mpr h0
    have L15 : ¬ (v < (0.15:ℚ)) := not_lt.mpr A15
    simp [refClassify, classRules, ruleMatches, List.find?, specClass,
      h0, A15, hhi, L0, L15]
  rcases lt_or_le v 0.35 with hhi | A35
  · have L0 : ¬ (v < (0:ℚ)) := not_lt.mpr h0
    have L15 : ¬ (v < (0.15:ℚ)) := not_lt.mpr (by linarith)
    have L25 : ¬ (v < (0.25:ℚ)) := not_lt.mpr A25
    simp [refClassify, classRules, ruleMatches, List.find?, specClass,
      h0, A25, hhi, L0, L15, L25]
  rcases lt_or_le v 0.45 with hhi | A45
  · have L0 : ¬ (v < (0:ℚ)) := not_lt.mpr h0
    have L15 : ¬ (v < (0.15:ℚ)) := not_lt.mpr (by linarith)
    have L25 : ¬ (v < (0.25:ℚ)) := not_lt.mpr (by linarith)
    have L35 : ¬ (v < (0.35:ℚ)) := not_lt.mpr A35
    have A15 : (0.15:ℚ) ≤ v := by linarith
    have A25 : (0.25:ℚ) ≤ v := by linarith
    simp [refClassify, classRules, ruleMatches, List.find?, specClass,
      h0, A15, A25, A35, hhi, L0, L15, L25, L35]
  rcases lt_or_le v 0.65 with hhi | A65
  · have L0 : ¬ (v < (0:ℚ)) := not_lt.mpr h0
    have L15 : ¬ (v < (0.15:ℚ)) := not_lt.mpr (by linarith)
    have L25 : ¬ (v < (0.25:ℚ)) := not_lt.mpr (by linarith)
    have L35 : ¬ (v < (0.35:ℚ)) := not_lt.mpr (by linarith)
    have L45 : ¬ (v < (0.45:ℚ)) := not_lt.mpr A45
    have A15 : (0.15:ℚ) ≤ v := by linarith
    have A25 : (0.25:ℚ) ≤ v := by linarith
    have A35 : (0.35:ℚ) ≤ v := by linarith
    simp [refClassify, classRules, ruleMatches, List.find?, specClass,
      h0, A15, A25, A35, A45, hhi, L0, L15, L25, L35, L45]
  rcases lt_or_le v 0.75 with hhi | A75
  · have L0 : ¬ (v < (0:ℚ)) := not_lt.mpr h0
    have L15 : ¬ (v < (0.15:ℚ)) := not_lt.mpr (by linarith)
    have L25 : ¬ (v < (0.25:ℚ)) := not_lt.mpr (by linarith)
    have L35 : ¬ (v < (0.35:ℚ)) := not_lt.mpr (by linarith)
    have L45 : ¬ (v < (0.45:ℚ)) := not_lt.mpr (by linarith)
    have L65 : ¬ (v < (0.65:ℚ)) := not_lt.mpr A65
    have A15 : (0.15:ℚ) ≤ v := by linarith
    have A25 : (0.25:ℚ) ≤ v := by linarith
    have A35 : (0.35:ℚ) ≤ v := by linarith
    have A45 : (0.45:ℚ) ≤ v := by linarith
    simp [refClassify, classRules, ruleMatches, List.find?, specClass,
      h0, A15, A25, A35, A45, A65, hhi, L0, L15, L25, L35, L45, L65]
  · have L0 : ¬ (v < (0:ℚ)) := not_lt.mpr h0
    have L15 : ¬ (v < (0.15:ℚ)) := not_lt.mpr (by linarith)
    have L25 : ¬ (v < (0.25:ℚ)) := not_lt.mpr (by linarith)
    have L35 : ¬ (v < (0.35:ℚ)) := not_lt.mpr (by linarith)
    have L45 : ¬ (v < (0.45:ℚ)) := not_lt.mpr (by linarith)
    have L65 : ¬ (v < (0.65:ℚ)) := not_lt.mpr (by linarith)
    have L75 : ¬ (v < (0.75:ℚ)) := not_lt.mpr A75
    have A15 : (0.15:ℚ) ≤ v := by linarith
    have A25 : (0.25:ℚ) ≤ v := by linarith
    have A35 : (0.35:ℚ) ≤ v := by linarith
    have A45 : (0.45:ℚ) ≤ v := by linarith
    have A65 : (0.65:ℚ) ≤ v := by linarith
    simp [refClassify, classRules, ruleMatches, List.find?, specClass,
      h0, A15, A25, A35, A45, A65, A75, L0, L15, L25, L35, L45, L65, L75]

/-- Exactly one of the seven `where` conditions fires at every unmasked
pixel with value ≥ 0. -/
theorem classConds_countP_eq_one (v : ℚ) (h0 : (0:ℚ) ≤ v) :
    (classConds (some v)).countP condFires = 1 := by
  rcases lt_or_le v 0.15 with hhi | A15
  · have N15 : ¬ ((0.15:ℚ) ≤ v) := not_le.mpr hhi
    have N25 : ¬ ((0.25:ℚ) ≤ v) := not_le.mpr (by linarith)
    have N35 : ¬ ((0.35:ℚ) ≤ v) := not_le.mpr (by linarith)
    have N45 : ¬ ((0.45:ℚ) ≤ v) := not_le.mpr (by linarith)
    have N65 : ¬ ((0.65:ℚ) ≤ v) := not_le.mpr (by linarith)
    have N75 : ¬ ((0.75:ℚ) ≤ v) := not_le.mpr (by linarith)
    simp [classConds, condFires, eeAnd, eeGte, eeLt, List.countP_cons,
      h0, hhi, N15, N25, N35, N45, N65, N75]
  rcases lt_or_le v 0.25 with hhi | A25
  · have L15 : ¬ (v < (0.15:ℚ)) := not_lt.mpr A15
    have N25 : ¬ ((0.25:ℚ) ≤ v) := not_le.mpr hhi
    have N35 : ¬ ((0.35:ℚ) ≤ v) := not_le.mpr (by linarith)
    have N45 : ¬ ((0.45:ℚ) ≤ v) := not_le.mpr (by linarith)
    have N65 : ¬ ((0.65:ℚ) ≤ v) := not_le.mpr (by linarith)
    have N75 : ¬ ((0.75:ℚ) ≤ v) := not_le.mpr (by linarith)
    simp [classConds, condFires, eeAnd, eeGte, eeLt, List.countP_cons,
      h0, A15, hhi, L15, N25, N35, N45, N65, N75]
  rcases lt_or_le v 0.35 with hhi | A35
  · have L15 : ¬ (v < (0.15:ℚ)) := not_lt.mpr (by linarith)
    have L25 : ¬ (v < (0.25:ℚ)) := not_lt.mpr A25
    have N35 : ¬ ((0.35:ℚ) ≤ v) := not_le.mpr hhi
    have N45 : ¬ ((0.45:ℚ) ≤ v) := not_le.mpr (by linarith)
    have N65 : ¬ ((0.65:ℚ) ≤ v) := not_le.mpr (by linarith)
    have N75 : ¬ ((0.75:ℚ) ≤ v) := not_le.mpr (by linarith)
    simp [classConds, condFires, eeAnd, eeGte, eeLt, List.countP_cons,
      h0, A15, A25, hhi, L15, L25, N35, N45, N65, N75]
  rcases lt_or_le v 0.45 with hhi | A45
  · have L15 : ¬ (v < (0.15:ℚ)) := not_lt.mpr (by linarith)
    have L25 : ¬ (v < (0.25:ℚ)) := not_lt.mpr (by linarith)
    have L35 : ¬ (v < (0.35:ℚ)) := not_lt.mpr A35
    have N45 : ¬ ((0.45:ℚ) ≤ v) := not_le.mpr hhi
    have N65 : ¬ ((0.65:ℚ) ≤ v) := not_le.mpr (by linarith)
    have N75 : ¬ ((0.75:ℚ) ≤ v) := not_le.mpr (by linarith)
    simp [classConds, condFires, eeAnd, eeGte, eeLt, List.countP_cons,
      h0, A15, A25, A35, hhi, L15, L25, L35, N45, N65, N75]
  rcases lt_or_le v 0.65 with hhi | A65
  · have L15 : ¬ (v < (0.15:ℚ)) := not_lt.mpr (by linarith)
    have L25 : ¬ (v < (0.25:ℚ)) := not_lt.mpr (by linarith)
    have L35 : ¬ (v < (0.35:ℚ)) := not_lt.mpr (by linarith)
    have L45 : ¬ (v < (0.45:ℚ)) := not_lt.mpr A45
    have N65 : ¬ ((0.65:ℚ) ≤ v) := not_le.mpr hhi
    have N75 : ¬ ((0.75:ℚ) ≤ v) := not_le.mpr (by linarith)
    simp [classConds, condFires, eeAnd, eeGte, eeLt, List.countP_cons,
      h0, A15, A25, A35, A45, hhi, L15, L25, L35, L45, N65, N75]
  rcases lt_or_le v 0.75 with hhi | A75
  · have L15 : ¬ (v < (0.15:ℚ)) := not_lt.mpr (by linarith)
    have L25 : ¬ (v < (0.25:ℚ)) := not_lt.mpr (by linarith)
    have L35 : ¬ (v < (0.35:ℚ)) := not_lt.mpr (by linarith)
    have L45 : ¬ (v < (0.45:ℚ)) := not_lt.mpr (by linarith)
    have L65 : ¬ (v < (0.65:ℚ)) := not_lt.mpr A65
    have N75 : ¬ ((0.75:ℚ) ≤ v) := not_le.mpr hhi
    simp [classConds, condFires, eeAnd, eeGte, eeLt, List.countP_cons,
      h0, A15, A25, A35, A45, A65, hhi, L15, L25, L35, L45, L65, N75]
  · have L15 : ¬ (v < (0.15:ℚ)) := not_lt.mpr (by linarith)
    have L25 : ¬ (v < (0.25:ℚ)) := not_lt.mpr (by linarith)
    have L35 : ¬ (v < (0.35:ℚ)) := not_lt.mpr (by linarith)
    have L45 : ¬ (v < (0.45:ℚ)) := not_lt.mpr (by linarith)
    have L65 : ¬ (v < (0.65:ℚ)) := not_lt.mpr (by linarith)
    have L75 : ¬ (v < (0.75:ℚ)) := not_lt.mpr A75
    simp [classConds, condFires, eeAnd, eeGte, eeLt, List.countP_cons,
      h0, A15, A25, A35, A45, A65, A75, L15, L25, L35, L45, L65, L75]

/-- The spec class table only produces the seven class identifiers. -/
theorem specClass_mem (v : ℚ) :
    specClass v = 1 ∨ specClass v = 2 ∨ specClass v = 3 ∨ specClass v = 4 ∨
      specClass v = 5 ∨ specClass v = 6 ∨ specClass v = 7 := by
  unfold specClass
  split_ifs <;> tauto

/-! ## Helper lemmas on the AOI resolver -/

/-- A file the loop body accepts has a coordinate path, and the polygon is
built from exactly those coordinates. -/
theorem procFile_ok_coordsOf (f : Option Json) (g : EEGeometry)
    (h : procFile f = .ok g) : ∃ c, coordsOf f = some c ∧ g = .Polygon c := by
  cases f with
  | none => simp [procFile] at h
  | some j =>
      cases hc : extractCoordinates j with
      | none => simp [procFile, hc] at h
      | some c =>
          simp [procFile, hc] at h
          exact ⟨c, by simp [coordsOf, hc], h.symm⟩

/-- When every file is valid, the loop accumulates one polygon per file,
in file order, built from that file's coordinates. -/
theorem buildGeometryList_eq (files : List (Option Json))
    (hval : ∀ f ∈ files, (coordsOf f).isSome) :
    buildGeometryList files =
      .ok (files.map (fun f => .Polygon ((coordsOf f).getD .null))) := by
  induction files with
  | nil => rfl
  | cons f fs ih =>
      have hf : (coordsOf f).isSome := hval f (List.mem_cons_self f fs)
      have hfs : ∀ g ∈ fs, (coordsOf g).isSome :=
        fun g hg => hval g (List.mem_cons_of_mem f hg)
      obtain ⟨c, hc⟩ := Option.isSome_iff_exists.mp hf
      cases f with
      | none => simp [coordsOf] at hc
      | some j =>
          have hcj : extractCoordinates j = some c := by simpa [coordsOf] using hc
          simp [buildGeometryList, procFile, hcj, ih hfs, coordsOf]

/-! ## The claims -/

/-- C1: the NDVI classification is a pure function of the original NDVI
value with lower-bound-inclusive breakpoints — class 1 on [0, 0.15), 2 on
[0.15, 0.25), 3 on [0.25, 0.35), 4 on [0.35, 0.45), 5 on [0.45, 0.65),
6 on [0.65, 0.75), 7 on [0.75, ∞) (the table `specClass`); in particular
0.10 ↦ 1, 0.30 ↦ 3, 0.80 ↦ 7, the boundary 0.25 ↦ 3, and a masked pixel
stays masked. -/
theorem C1_classification_pure_function (v : ℚ) (hv : (0:ℚ) ≤ v) :
    ndvi_classified (some v) = some (specClass v)
    ∧ ndvi_classified (some 0.10) = some 1
    ∧ ndvi_classified (some 0.30) = some 3
    ∧ ndvi_classified (some 0.80) = some 7
    ∧ ndvi_classified (some 0.25) = some 3
    ∧ ndvi_classified none = none := by
  refine ⟨?_, ?_, ?_, ?_, ?_, rfl⟩
  · rw [ndvi_classified_some_eq, if_neg (not_lt.mpr hv)]
  · rw [ndvi_classified_some_eq]; norm_num [specClass]
  · rw [ndvi_classified_some_eq]; norm_num [specClass]
  · rw [ndvi_classified_some_eq]; norm_num [specClass]
  · rw [ndvi_classified_some_eq]; norm_num [specClass]

/-- Witness for C1 at the concrete input 0. -/
theorem C1_witness :
    (0:ℚ) ≤ 0
    ∧ (ndvi_classified (some 0) = some (specClass 0)
       ∧ ndvi_classified (some 0.10) = some 1
       ∧ ndvi_classified (some 0.30) = some 3
       ∧ ndvi_classified (some 0.80) = some 7
       ∧ ndvi_classified (some 0.25) = some 3
       ∧ ndvi_classified none = none) :=
  ⟨le_refl 0, C1_classification_pure_function 0 (le_refl 0)⟩

/-- C2: the sequential conditional-overwrite chain (seven `where` rules in
ascending threshold order, conditions reading the original NDVI) is
equivalent, at every pixel — masked included — to the reference
classifier given by the explicit ordered rule list `classRules` with
first-matching-rule-wins semantics and mask propagation. -/
theorem C2_chain_equals_rule_list (p : Option ℚ) :
    ndvi_classified p = refClassify p := by
  cases p with
  | none => rfl
  | some v => rw [ndvi_classified_some_eq, refClassify_some_eq]

/-- C3: NDVI is `(B8 - B4) / (B8 + B4)` on the composite's bands, and the
rendered NDVI layer masks out every pixel whose NDVI value is below 0 —
only pixels with NDVI ≥ 0 stay unmasked. -/
theorem C3_ndvi_formula_and_mask (b8 b4 : ℚ) (h : b8 + b4 ≠ 0) :
    getNDVI (some b8) (some b4) = some ((b8 - b4) / (b8 + b4))
    ∧ maskedNDVI (some b8) (some b4) =
        (if 0 ≤ (b8 - b4) / (b8 + b4) then some ((b8 - b4) / (b8 + b4)) else none)
    ∧ ∀ v, maskedNDVI (some b8) (some b4) = some v → 0 ≤ v := by
  have hnd : getNDVI (some b8) (some b4) = some ((b8 - b4) / (b8 + b4)) := by
    simp [getNDVI, normalizedDifference, h]
  have hmask : maskedNDVI (some b8) (some b4) =
      (if 0 ≤ (b8 - b4) / (b8 + b4) then some ((b8 - b4) / (b8 + b4)) else none) := by
    rcases le_or_lt 0 ((b8 - b4) / (b8 + b4)) with hge | hlt
    · simp [maskedNDVI, getNDVI, normalizedDifference, h, updateMask, eeGte, hge]
    · have hng : ¬ ((0:ℚ) ≤ (b8 - b4) / (b8 + b4)) := not_le.mpr hlt
      simp [maskedNDVI, getNDVI, normalizedDifference, h, updateMask, eeGte, hng]
  refine ⟨hnd, hmask, ?_⟩
  intro v hv
  rw [hmask] at hv
  by_cases hge : (0:ℚ) ≤ (b8 - b4) / (b8 + b4)
  · rw [if_pos hge] at hv
    obtain rfl : (b8 - b4) / (b8 + b4) = v := by simpa using hv
    exact hge
  · rw [if_neg hge] at hv
    simp at hv

/-- Witness for C3 at the concrete bands B8 = 1, B4 = 0. -/
theorem C3_witness :
    (1:ℚ) + 0 ≠ 0
    ∧ (getNDVI (some 1) (some 0) = some (((1:ℚ) - 0) / (1 + 0))
       ∧ maskedNDVI (some 1) (some 0) =
           (if (0:ℚ) ≤ ((1:ℚ) - 0) / (1 + 0) then some (((1:ℚ) - 0) / (1 + 0)) else none)
       ∧ ∀ v, maskedNDVI (some 1) (some 0) = some v → (0:ℚ) ≤ v) :=
  ⟨by simp, C3_ndvi_formula_and_mask 1 0 (by simp)⟩

/-- C4: for zero uploaded files the AOI resolver returns the fixed default
point `[27.98, 36.13]` and raises no exception. -/
theorem C4_empty_upload_default_point :
    upload_files_proc [] = .ok (.Point [27.98, 36.13]) := rfl

/-- C5: for every non-empty list of uploaded files each holding valid
GeoJSON with a polygon at `features[0].geometry.coordinates`, the resolver
returns a multi-polygon with exactly one polygon per input file, in file
order, each built from that file's coordinate array. -/
theorem C5_multi_upload_order_preserving (files : List (Option Json))
    (hne : files ≠ []) (hval : ∀ f ∈ files, (coordsOf f).isSome) :
    upload_files_proc files =
      .ok (.MultiPolygon (files.map (fun f => .Polygon ((coordsOf f).getD .null)))) := by
  have hmap : (files.map (fun f => EEGeometry.Polygon ((coordsOf f).getD .null))).isEmpty
      = false := by
    cases files with
    | nil => exact absurd rfl hne
    | cons f fs => simp
  simp [upload_files_proc, buildGeometryList_eq files hval, hmap]

/-- Witness for C5 on two concrete valid files. -/
theorem C5_witness :
    ([some (sampleDoc sampleRing), some (sampleDoc sampleRing2)] ≠
      ([] : List (Option Json)))
    ∧ (∀ f ∈ [some (sampleDoc sampleRing), some (sampleDoc sampleRing2)],
        (coordsOf f).isSome)
    ∧ upload_files_proc [some (sampleDoc sampleRing), some (sampleDoc sampleRing2)] =
        .ok (.MultiPolygon
          ([some (sampleDoc sampleRing), some (sampleDoc sampleRing2)].map
            (fun f => .Polygon ((coordsOf f).getD .null)))) :=
  ⟨List.cons_ne_nil _ _, fun f hf => by
      rcases List.mem_cons.mp hf with h | h
      · rw [h]; rfl
      · rcases List.mem_cons.mp h with h2 | h2
        · rw [h2]; rfl
        · exact absurd h2 (List.not_mem_nil f),
    C5_multi_upload_order_preserving _ (List.cons_ne_nil _ _) (fun f hf => by
      rcases List.mem_cons.mp hf with h | h
      · rw [h]; rfl
      · rcases List.mem_cons.mp h with h2 | h2
        · rw [h2]; rfl
        · exact absurd h2 (List.not_mem_nil f))⟩

/-- C6: for a single uploaded file with valid single-polygon GeoJSON, the
resolver's output geometry carries the file's
`features[0].geometry.coordinates` array unchanged. -/
theorem C6_single_upload_ring_preserved (j c : Json)
    (hc : extractCoordinates j = some c) :
    upload_files_proc [some j] = .ok (.MultiPolygon [.Polygon c]) := by
  simp [upload_files_proc, buildGeometryList, procFile, hc]

/-- Witness for C6 on a concrete document: the ring `sampleRing` is
carried through unchanged. -/
theorem C6_witness :
    extractCoordinates (sampleDoc sampleRing) = some sampleRing
    ∧ upload_files_proc [some (sampleDoc sampleRing)] =
        .ok (.MultiPolygon [.Polygon sampleRing]) :=
  ⟨rfl, C6_single_upload_ring_preserved (sampleDoc sampleRing) sampleRing rfl⟩

/-- C7: a malformed file — unparsable content or a missing
`features[0].geometry.coordinates` path — makes the resolver raise: the
render aborts with an error, with no silent default, no skipping of the
bad file, and no geometry returned for any file. -/
theorem C7_bad_file_aborts (files : List (Option Json))
    (hbad : ∃ f ∈ files, coordsOf f = none) :
    ∃ msg, upload_files_proc files = .error msg := by
  suffices h : ∃ msg, buildGeometryList files = .error msg by
    obtain ⟨msg, hm⟩ := h
    exact ⟨msg, by simp [upload_files_proc, hm]⟩
  induction files with
  | nil => simp at hbad
  | cons f fs ih =>
      obtain ⟨g, hg, hgnone⟩ := hbad
      cases hpf : procFile f with
      | error e => exact ⟨e, by simp [buildGeometryList, hpf]⟩
      | ok geom =>
          obtain ⟨c, hcf, _⟩ := procFile_ok_coordsOf f geom hpf
          have hgfs : g ∈ fs := by
            rcases List.mem_cons.mp hg with rfl | hmem
            · rw [hcf] at hgnone; cases hgnone
            · exact hmem
          obtain ⟨msg, hm⟩ := ih ⟨g, hgfs, hgnone⟩
          exact ⟨msg, by simp [buildGeometryList, hpf, hm]⟩

/-- Witness for C7: one unparsable file. -/
theorem C7_witness :
    (∃ f ∈ ([none] : List (Option Json)), coordsOf f = none)
    ∧ ∃ msg, upload_files_proc [none] = .error msg :=
  ⟨⟨none, List.mem_cons_self none [], rfl⟩,
    C7_bad_file_aborts [none] ⟨none, List.mem_cons_self none [], rfl⟩⟩

/-- C8: when the pickers are unset, the time window defaults to
2023-02-10 / 2023-02-20; both date values are reformatted to `YYYY-MM-DD`
strings; the image-collection query receives exactly the strings
"2023-02-10" and "2023-02-20" for those picker values; and no start ≤ end
validation happens — the pair is produced by `strftime` alone for every
pair of picker values, reversed ones included. -/
theorem C8_time_window_defaults_and_format :
    timeWindow none none = ("2023-02-10", "2023-02-20")
    ∧ timeWindow (some ⟨2023, 2, 10⟩) (some ⟨2023, 2, 20⟩) =
        ("2023-02-10", "2023-02-20")
    ∧ (∀ s e : PyDate, timeWindow (some s) (some e) = (strftimeYmd s, strftimeYmd e))
    ∧ (∀ sp ep g, dateArgs (queryForInputs sp ep g) = some (timeWindow sp ep))
    ∧ (∀ g, dateArgs (queryForInputs (some ⟨2023, 2, 10⟩) (some ⟨2023, 2, 20⟩) g) =
        some ("2023-02-10", "2023-02-20")) :=
  ⟨rfl, rfl, fun _ _ => rfl, fun _ _ _ => rfl, fun _ => rfl⟩

/-- C9: the image-collection query applies exactly three filters to the
archive `COPERNICUS/S2_SR`, in sequence — (1) `CLOUDY_PIXEL_PERCENTAGE`
strictly below 100, (2) the start/end date window, (3) spatial
intersection with the AOI — and the cloud filter is a strict less-than
against 100 (a scene at exactly 100 is excluded). -/
theorem C9_collection_query_filters (db : String → List Scene) (s e : String)
    (aoi : EEGeometry) :
    runQuery db (collectionQuery s e aoi) =
      (((db "COPERNICUS/S2_SR").filter
          (fun sc => decide (sc.props "CLOUDY_PIXEL_PERCENTAGE" < 100))).filter
        (fun sc => dateInWindow s e sc.date)).filter
      (fun sc => sc.intersects aoi)
    ∧ (∀ sc, sc ∈ runQuery db (collectionQuery s e aoi) ↔
        (sc ∈ db "COPERNICUS/S2_SR" ∧ sc.props "CLOUDY_PIXEL_PERCENTAGE" < 100 ∧
         dateInWindow s e sc.date = true ∧ sc.intersects aoi = true))
    ∧ (∀ sc, sc.props "CLOUDY_PIXEL_PERCENTAGE" = 100 →
        sc ∉ runQuery db (collectionQuery s e aoi)) := by
  have hmem : ∀ sc, sc ∈ runQuery db (collectionQuery s e aoi) ↔
      (sc ∈ db "COPERNICUS/S2_SR" ∧ sc.props "CLOUDY_PIXEL_PERCENTAGE" < 100 ∧
       dateInWindow s e sc.date = true ∧ sc.intersects aoi = true) := by
    intro sc
    simp [runQuery, collectionQuery, runFilter, List.mem_filter,
      decide_eq_true_eq]
    tauto
  refine ⟨rfl, hmem, ?_⟩
  intro sc h100 hmem'
  have := ((hmem sc).mp hmem').2.1
  rw [h100] at this
  exact lt_irrefl _ this

/-- C10: the seven classification conditions partition the unmasked NDVI
domain [0, ∞): at every unmasked value v ≥ 0, exactly one of the seven
`where` conditions fires, and the classified pixel is overwritten with a
class value in {1, ..., 7} (no unmasked pixel keeps a raw NDVI value the
chain never touched). -/
theorem C10_conditions_partition (v : ℚ) (hv : (0:ℚ) ≤ v) :
    (classConds (some v)).countP condFires = 1
    ∧ ∃ c, ndvi_classified (some v) = some c ∧
        (c = 1 ∨ c = 2 ∨ c = 3 ∨ c = 4 ∨ c = 5 ∨ c = 6 ∨ c = 7) := by
  refine ⟨classConds_countP_eq_one v hv, specClass v, ?_, specClass_mem v⟩
  rw [ndvi_classified_some_eq, if_neg (not_lt.mpr hv)]

/-- Witness for C10 at the concrete input 0. -/
theorem C10_witness :
    (0:ℚ) ≤ 0
    ∧ ((classConds (some 0)).countP condFires = 1
       ∧ ∃ c, ndvi_classified (some 0) = some c ∧
           (c = 1 ∨ c = 2 ∨ c = 3 ∨ c = 4 ∨ c = 5 ∨ c = 6 ∨ c = 7)) :=
  ⟨le_refl 0, C10_conditions_partition 0 (le_refl 0)⟩

end NDVIViewer
